import Mathlib

/-!
Verification of `run.py` from the macvim-download-stats repository.

The script tracks MacVim download statistics over time.  Its core is three CSV
writers fed by two HTTP snapshots:
  * a per-release downloads CSV upserter (`query_github_releases`, lines 62-158),
  * a releases-metadata table writer (`query_github_releases`, lines 161-179),
  * a Homebrew installs appender (`query_homebrew_installs`, lines 182-217).

We embed the file-writing logic shallowly: a CSV file is a `List (List String)`
of rows of cells, the filesystem for the per-release files is an association
list from path to content, and a fatal termination (`exit`, or an uncaught
Python exception) is an `Except` error carrying the exit code, the stream the
diagnostic goes to, and the message.  HTTP transport and JSON decoding are the
script's external collaborators and appear only as already-decoded values.
-/

/-- Line 26 of run.py: the fixed timestamp column header `"Date (UTC)"`. -/
def utc_date_header : String := "Date (UTC)"

/-- One release asset as decoded from the GitHub JSON: its `name` and its
`download_count`. -/
structure Asset where
  name : String
  download_count : Nat
deriving Repr, DecidableEq

/-- Which output stream a diagnostic message is printed to.  `print(...)`
writes to stdout; `print(..., file=sys.stderr)` and exception tracebacks go
to stderr. -/
inductive OutStream where
  | stdout
  | stderr
deriving Repr, DecidableEq

/-- A fatal termination of the process: `exit(code)` after printing `message`
to `stream`, or an uncaught exception (exit code 1, traceback on stderr). -/
structure Fatal where
  exitCode : Int
  stream : OutStream
  message : String
deriving Repr, DecidableEq

/-! ## Timestamp normalization (run.py lines 65-70)

`datetime.fromisoformat(s).astimezone(timezone.utc).strftime("%Y-%m-%d %H:%M:%S")`

A parsed aware `datetime` value is its civil fields plus a UTC offset in
minutes.  CPython's `datetime` arithmetic goes through the proleptic Gregorian
ordinal (`toordinal` / `fromordinal`); we implement those conversions with the
standard civil-from-days / days-from-civil algorithms over `Int`.  `Int`
division `/` is `Int.ediv`, which for the positive divisors used here is floor
division, the same as Python's `//`. -/

/-- A Python `datetime` with a fixed-offset timezone: civil fields plus the
`utcoffset()` in minutes (`0` means UTC itself). -/
structure PyDatetime where
  year : Int
  month : Int
  day : Int
  hour : Int
  minute : Int
  second : Int
  offsetMinutes : Int
deriving Repr, DecidableEq

/-- Days since 1970-01-01 of a proleptic Gregorian civil date
(`datetime.toordinal` shifted to the Unix epoch). -/
def daysFromCivil (y m d : Int) : Int :=
  let y2 := y - (if m ≤ 2 then 1 else 0)
  let era := y2 / 400
  let yoe := y2 - era * 400
  let mp := if 2 < m then m - 3 else m + 9
  let doy := (153 * mp + 2) / 5 + d - 1
  let doe := yoe * 365 + yoe / 4 - yoe / 100 + doy
  era * 146097 + doe - 719468

/-- Civil date (year, month, day) of a days-since-epoch count; the inverse of
`daysFromCivil` (`datetime.fromordinal` shifted to the Unix epoch). -/
def civilFromDays (z : Int) : Int × Int × Int :=
  let z2 := z + 719468
  let era := z2 / 146097
  let doe := z2 - era * 146097
  let yoe := (doe - doe / 1460 + doe / 36524 - doe / 146096) / 365
  let y := yoe + era * 400
  let doy := doe - (365 * yoe + yoe / 4 - yoe / 100)
  let mp := (5 * doy + 2) / 153
  let d := doy - (153 * mp + 2) / 5 + 1
  let m := if mp < 10 then mp + 3 else mp - 9
  (if m ≤ 2 then y + 1 else y, m, d)

/-- The absolute instant (seconds since the Unix epoch) denoted by an aware
`datetime`: its civil fields read as UTC, minus the UTC offset. -/
def toInstant (dt : PyDatetime) : Int :=
  daysFromCivil dt.year dt.month dt.day * 86400
    + dt.hour * 3600 + dt.minute * 60 + dt.second - dt.offsetMinutes * 60

/-- The UTC `datetime` denoting a given absolute instant. -/
def fromInstantUtc (i : Int) : PyDatetime :=
  let days := i / 86400
  let rem := i - days * 86400
  let c := civilFromDays days
  { year := c.1, month := c.2.1, day := c.2.2,
    hour := rem / 3600, minute := rem % 3600 / 60, second := rem % 60,
    offsetMinutes := 0 }

/-- `dt.astimezone(timezone.utc)` for an aware `dt`: CPython subtracts the
offset with ordinal-based field arithmetic and attaches the UTC zone, i.e. it
re-renders the instant of `dt` in UTC. -/
def pyAstimezoneUtc (dt : PyDatetime) : PyDatetime :=
  fromInstantUtc (toInstant dt)

/-- Zero-padded two-digit rendering used by `strftime` for `%m %d %H %M %S`. -/
def pad2 (n : Int) : String :=
  if n < 10 then "0" ++ toString n else toString n

/-- Zero-padded four-digit rendering used by `strftime` for `%Y`. -/
def pad4 (n : Int) : String :=
  if n < 10 then "000" ++ toString n
  else if n < 100 then "00" ++ toString n
  else if n < 1000 then "0" ++ toString n
  else toString n

/-- `strftime("%Y-%m-%d %H:%M:%S")`: the civil fields rendered with no
timezone designator. -/
def pyStrftime (dt : PyDatetime) : String :=
  pad4 dt.year ++ "-" ++ pad2 dt.month ++ "-" ++ pad2 dt.day ++ " " ++
    pad2 dt.hour ++ ":" ++ pad2 dt.minute ++ ":" ++ pad2 dt.second

/-- run.py lines 66-70: the timestamp fix-up applied to `created_at` and
`published_at` before they are stored in the metadata table. -/
def fixupTimestamp (dt : PyDatetime) : String :=
  pyStrftime (pyAstimezoneUtc dt)

/-- The bounds on the year-of-era and day-of-year quantities inside
`civilFromDays` that make `daysFromCivil` its left inverse. -/
def doyBoundsP (doe : Int) : Prop :=
  0 ≤ (doe - doe / 1460 + doe / 36524 - doe / 146096) / 365 ∧
  (doe - doe / 1460 + doe / 36524 - doe / 146096) / 365 ≤ 399 ∧
  0 ≤ doe - (365 * ((doe - doe / 1460 + doe / 36524 - doe / 146096) / 365)
      + ((doe - doe / 1460 + doe / 36524 - doe / 146096) / 365) / 4
      - ((doe - doe / 1460 + doe / 36524 - doe / 146096) / 365) / 100) ∧
  doe - (365 * ((doe - doe / 1460 + doe / 36524 - doe / 146096) / 365)
      + ((doe - doe / 1460 + doe / 36524 - doe / 146096) / 365) / 4
      - ((doe - doe / 1460 + doe / 36524 - doe / 146096) / 365) / 100) ≤ 365

/-! ## Per-release downloads CSV upserter (run.py lines 62-158) -/

/-- Lookup in a Python dict built from an association list: a later binding
for the same key overwrites an earlier one. -/
def lookupLast {α : Type} : List (String × α) → String → Option α
  | [], _ => none
  | (k, v) :: t, key =>
    match lookupLast t key with
    | some r => some r
    | none => if k = key then some v else none

/-- The cell that `csv.DictWriter.writerow` emits for column `f` of the new
observation row (run.py lines 139-151): the row dict maps each asset name to
its download count and finally `utc_date_header` to the run timestamp; a
fieldname absent from the dict is written as the empty `restval`. -/
def obsCell (now : String) (assets : List Asset) (f : String) : String :=
  if f = utc_date_header then now
  else
    match lookupLast (assets.map fun a => (a.name, a.download_count)) f with
    | some c => Nat.repr c
    | none => ""

/-- The uncaught-exception termination: traceback on stderr, exit status 1. -/
def pyValueError : Fatal :=
  ⟨1, OutStream.stderr, "ValueError: dict contains fields not in fieldnames"⟩

/-- A Python `sorted` comparison between a str and an int key raises
TypeError; uncaught it kills the process with a traceback on stderr. -/
def pyTypeError : Fatal :=
  ⟨1, OutStream.stderr, "TypeError: '<' not supported between instances of str and int"⟩

/-- `DictWriter.writerow` for the new observation row: raises ValueError when
the row dict holds a key outside the fieldnames, otherwise emits one cell per
fieldname via `obsCell`. -/
def writeObsRow (now : String) (assets : List Asset) (fieldnames : List String) :
    Except Fatal (List String) :=
  if (utc_date_header :: assets.map (·.name)).all fieldnames.contains then
    .ok (fieldnames.map (obsCell now assets))
  else
    .error pyValueError

/-- The value `DictReader` associates to fieldname `f` for a data row `cells`
read under `header`: `dict(zip(header, cells))` with fieldnames beyond the
row's length bound to the `None` restval, which `DictWriter` writes as `""`. -/
def rowDictGet (header cells : List String) (f : String) : String :=
  let pairs := (header.zip cells).map (fun p => (p.1, some p.2))
      ++ (header.drop cells.length).map (fun h => (h, (none : Option String)))
  match lookupLast pairs f with
  | some (some v) => v
  | _ => ""

/-- Re-emitting one previously stored row under the expanded fieldnames
(run.py line 137): cells longer than the old header land under the `None`
restkey and old header names missing from the new fieldnames are extraneous
dict keys; both make `DictWriter.writerow` raise ValueError. -/
def convertRow (oldHeader newFieldnames : List String) (cells : List String) :
    Except Fatal (List String) :=
  if cells.length ≤ oldHeader.length then
    if oldHeader.all newFieldnames.contains then
      .ok (newFieldnames.map (rowDictGet oldHeader cells))
    else .error pyValueError
  else .error pyValueError

/-- run.py lines 79-81: the per-release downloads CSV path. -/
def downloadsCsvPath (tag : String) : String :=
  "github_release/downloads/" ++ tag ++ ".csv"

/-- run.py lines 91-151 for one release with a nonempty asset list: reconcile
the snapshot's asset names against the stored header and produce the new file
content.  `file = none` means the file does not exist yet; `some rows` is its
current content, first row the header.  An empty existing file has
`DictReader.fieldnames = None`: the script prints a diagnostic (to stdout,
plain `print`) and calls `exit(-1)`. -/
def upsertRelease (now path : String) (assets : List Asset)
    (file : Option (List (List String))) : Except Fatal (List (List String)) :=
  let asset_names := assets.map (·.name)
  match file with
  | none =>
    match writeObsRow now assets (utc_date_header :: asset_names) with
    | .ok row => .ok [utc_date_header :: asset_names, row]
    | .error e => .error e
  | some [] =>
    .error ⟨-1, OutStream.stdout, "Found csv file with no headers: " ++ path⟩
  | some (header :: rows) =>
    let old_asset_names := header.drop 1
    let new_asset_names := asset_names.filter (fun n => !(old_asset_names.contains n))
    let asset_names2 := old_asset_names ++ new_asset_names
    let existing_rows := if new_asset_names.isEmpty then ([] : List (List String)) else rows
    if existing_rows.isEmpty then
      match writeObsRow now assets (utc_date_header :: asset_names2) with
      | .ok row => .ok ((header :: rows) ++ [row])
      | .error e => .error e
    else
      match existing_rows.mapM (convertRow header (utc_date_header :: asset_names2)) with
      | .ok conv =>
        match writeObsRow now assets (utc_date_header :: asset_names2) with
        | .ok row => .ok ((utc_date_header :: asset_names2) :: conv ++ [row])
        | .error e => .error e
      | .error e => .error e

/-- One release as decoded from the GitHub JSON (run.py lines 51-59 list the
metadata columns; `assets` feeds the downloads CSV). -/
structure Release where
  id : Nat
  tag_name : String
  name : String
  draft : Bool
  prerelease : Bool
  created_at : PyDatetime
  published_at : PyDatetime
  assets : List Asset
deriving Repr, DecidableEq

/-- One metadata record of `new_release_rows` (run.py lines 63-71): the seven
columns with the two timestamps already normalized.  `id` is still the JSON
integer. -/
structure ReleaseMeta where
  id : Nat
  tag_name : String
  name : String
  draft : Bool
  prerelease : Bool
  created_at : String
  published_at : String
deriving Repr, DecidableEq

/-- run.py lines 63-71: build the metadata record for one release. -/
def metaRowOf (r : Release) : ReleaseMeta :=
  { id := r.id, tag_name := r.tag_name, name := r.name, draft := r.draft,
    prerelease := r.prerelease,
    created_at := fixupTimestamp r.created_at,
    published_at := fixupTimestamp r.published_at }

/-- The effects of the per-release loop body for one release: the metadata
record appended to `new_release_rows`, the content written to the downloads
CSV (`none` when the file is not touched), and whether the raw-snapshot JSON
file was written. -/
structure StepEffects where
  metaRow : ReleaseMeta
  csvWrite : Option (List (List String))
  jsonWritten : Bool
deriving Repr, DecidableEq

/-- run.py lines 62-158, one iteration of the release loop: the metadata row
is built first (lines 63-71); a release with no assets is then skipped by
`continue` (lines 87-89) before any file is created or written; otherwise the
downloads CSV is upserted and the raw JSON snapshot written (lines 153-156). -/
def processRelease (now : String) (r : Release) (file : Option (List (List String))) :
    Except Fatal StepEffects :=
  let meta := metaRowOf r
  if (r.assets.map (·.name)).isEmpty then
    .ok ⟨meta, none, false⟩
  else
    match upsertRelease now (downloadsCsvPath r.tag_name) r.assets file with
    | .ok content => .ok ⟨meta, some content, true⟩
    | .error e => .error e

/-- A filesystem for the per-release CSV files: association list from path to
content, unique paths. -/
def lookupFile (fs : List (String × List (List String))) (path : String) :
    Option (List (List String)) :=
  match fs with
  | [] => none
  | (p, c) :: t => if p = path then some c else lookupFile t path

/-- Overwrite (or create) one file of the filesystem. -/
def setFile (fs : List (String × List (List String))) (path : String)
    (content : List (List String)) : List (String × List (List String)) :=
  match fs with
  | [] => [(path, content)]
  | (p, c) :: t => if p = path then (p, content) :: t else (p, c) :: setFile t path content

/-- The accumulated state of the release loop: the downloads-CSV filesystem,
the `new_release_rows` list, and the tags whose raw JSON was written. -/
structure RunState where
  fs : List (String × List (List String))
  metas : List ReleaseMeta
  jsons : List String
deriving Repr, DecidableEq

/-- run.py lines 62-158: the whole release loop.  A fatal error in one
iteration aborts the remainder of the run. -/
def processAll (now : String) : List Release → RunState → Except Fatal RunState
  | [], st => .ok st
  | r :: rest, st =>
    match processRelease now r (lookupFile st.fs (downloadsCsvPath r.tag_name)) with
    | .error e => .error e
    | .ok eff =>
      let fs2 := match eff.csvWrite with
        | some c => setFile st.fs (downloadsCsvPath r.tag_name) c
        | none => st.fs
      processAll now rest ⟨fs2, st.metas ++ [eff.metaRow],
        st.jsons ++ (if eff.jsonWritten then [r.tag_name] else [])⟩

/-! ## Releases metadata table writer (run.py lines 161-179) -/

/-- One previously stored row of `github_release/releases.csv` as
`csv.DictReader` yields it: every field, `id` included, is a string. -/
structure StoredMeta where
  id : String
  tag_name : String
  name : String
  draft : String
  prerelease : String
  created_at : String
  published_at : String
deriving Repr, DecidableEq

/-- A row of the merged `release_rows` list (run.py lines 169-170): either a
stored row read back from the CSV (string fields) or a freshly fetched record
(integer id). -/
inductive MetaRow where
  | old (r : StoredMeta)
  | new (r : ReleaseMeta)
deriving Repr, DecidableEq

/-- The identifier cell of a row as it lands in the CSV: the stored string for
an old row, `str(id)` for a new one. -/
def metaIdStr : MetaRow → String
  | .old r => r.id
  | .new r => Nat.repr r.id

/-- The numeric value of a decimal digit character. -/
def charDigit (c : Char) : Nat := c.toNat - 48

/-- Base-ten value of a digit string (no validity checking). -/
def decValAux : List Char → Nat → Nat
  | [], acc => acc
  | c :: t, acc => decValAux t (acc * 10 + charDigit c)

/-- The numeric value of a decimal string. -/
def strNumVal (s : String) : Nat := decValAux s.data 0

/-- The identifier of a row read as its numeric value (stored strings parsed
in base ten); used to state numeric sortedness. -/
def metaIdNum : MetaRow → Nat
  | .old r => strNumVal r.id
  | .new r => r.id

/-- Is a list of naturals sorted ascending? -/
def ascNat : List Nat → Bool
  | a :: b :: t => decide (a ≤ b) && ascNat (b :: t)
  | _ => true

/-- run.py lines 162-172: keep every stored row, then append the fetched
records whose `str(id)` is not among the stored id strings. -/
def mergedRows (oldFile : Option (List StoredMeta)) (fetched : List ReleaseMeta) :
    List MetaRow :=
  match oldFile with
  | some old_release_rows =>
    let old_release_ids := old_release_rows.map (·.id)
    old_release_rows.map .old ++
      (fetched.filter (fun r => !(old_release_ids.contains (Nat.repr r.id)))).map .new
  | none => fetched.map .new

/-- Whether a row's sort key (`o['id']`) is a Python str. -/
def isOldRow : MetaRow → Bool
  | .old _ => true
  | .new _ => false

/-- Whether a row's sort key (`o['id']`) is a Python int. -/
def isNewRow : MetaRow → Bool
  | .old _ => false
  | .new _ => true

/-- `sorted` compares the keys with `<`; that succeeds exactly when all keys
have one type.  A list holding both a str key and an int key forces at least
one cross-type comparison, which raises TypeError. -/
def rowsHomogeneous (l : List MetaRow) : Bool :=
  l.all isOldRow || l.all isNewRow

/-- Python's `<` on strings: lexicographic comparison of the code-point
sequences. -/
def charListLt : List Char → List Char → Bool
  | [], [] => false
  | [], _ :: _ => true
  | _ :: _, [] => false
  | a :: as, b :: bs => if a < b then true else if b < a then false else charListLt as bs

/-- The `<` comparison of two same-typed sort keys: Python compares strings
lexicographically by code point and integers numerically. -/
def keyLt : MetaRow → MetaRow → Bool
  | .old a, .old b => charListLt a.id.data b.id.data
  | .new a, .new b => decide (a.id < b.id)
  | _, _ => false

/-- Stable insertion of a row into an already sorted list: the new row goes
after every row whose key is not greater, as Python's stable sort does for
rows arriving later in the input. -/
def insertRow (a : MetaRow) : List MetaRow → List MetaRow
  | [] => [a]
  | b :: bs => if keyLt a b then a :: b :: bs else b :: insertRow a bs

/-- A stable ascending sort by `keyLt`, the behaviour of Python `sorted` on a
list of homogeneous keys. -/
def sortRows (l : List MetaRow) : List MetaRow :=
  l.foldl (fun acc a => insertRow a acc) []

/-- run.py line 174: `sorted(release_rows, key=lambda o: o['id'])` — a stable
sort when every key has the same type, a TypeError otherwise. -/
def pySortedRows (l : List MetaRow) : Except Fatal (List MetaRow) :=
  if rowsHomogeneous l then .ok (sortRows l) else .error pyTypeError

/-- run.py lines 161-179: the rows the metadata writer writes, or the fatal
TypeError raised by `sorted` before any write happens. -/
def writeReleasesTable (oldFile : Option (List StoredMeta)) (fetched : List ReleaseMeta) :
    Except Fatal (List MetaRow) :=
  pySortedRows (mergedRows oldFile fetched)

/-- The rows of `github_release/releases.csv` after a run of the metadata
writer: the sorted merge when the write happens; when `sorted` raises, the
process dies before the truncating `open(..., "w")` on line 176, so the
previously stored rows remain. -/
def finalReleasesTable (oldFile : Option (List StoredMeta)) (fetched : List ReleaseMeta) :
    List MetaRow :=
  match writeReleasesTable oldFile fetched with
  | .ok rows => rows
  | .error _ => (oldFile.getD []).map .old

/-! ## Homebrew installs appender (run.py lines 182-217) -/

/-- The fields extracted from the Homebrew formula JSON (lines 186-191). -/
structure HomebrewInfo where
  generated_date : String
  stable_version : String
  installs_30d : Nat
  installs_on_request_30d : Nat
deriving Repr, DecidableEq

/-- run.py lines 199-207: the fixed header written on first use. -/
def homebrewHeader : List String :=
  [utc_date_header, "generated_date", "versions.stable", "install.30d",
    "install_on_request.30d"]

/-- run.py lines 209-213: the one data row appended per run. -/
def homebrewRow (now : String) (f : HomebrewInfo) : List String :=
  [now, f.generated_date, f.stable_version, Nat.repr f.installs_30d,
    Nat.repr f.installs_on_request_30d]

/-- run.py lines 193-213: create `homebrew/installs.csv` with its header when
absent, then append exactly one data row. -/
def query_homebrew_installs (now : String) (f : HomebrewInfo)
    (file : Option (List (List String))) : List (List String) :=
  let base := match file with
    | none => [homebrewHeader]
    | some rows => rows
  base ++ [homebrewRow now f]

/-! ## Concrete inputs used by witnesses and counterexamples -/

/-- A stored metadata row with identifier string `"9"`. -/
def exR9 : StoredMeta :=
  ⟨"9", "snapshot-9", "MacVim snapshot 9", "False", "False",
    "2020-01-01 00:00:00", "2020-01-02 00:00:00"⟩

/-- A stored metadata row with identifier string `"10"`. -/
def exR10 : StoredMeta :=
  ⟨"10", "snapshot-10", "MacVim snapshot 10", "False", "False",
    "2020-02-01 00:00:00", "2020-02-02 00:00:00"⟩

/-- A freshly fetched metadata record with the new identifier `123`. -/
def exMeta123 : ReleaseMeta :=
  ⟨123, "snapshot-123", "MacVim snapshot 123", false, false,
    "2024-01-01 15:00:00", "2024-01-01 15:00:00"⟩

/-- A freshly fetched metadata record whose identifier `9` is already
stored. -/
def exMeta9 : ReleaseMeta :=
  ⟨9, "snapshot-9", "MacVim snapshot 9", false, false,
    "2020-01-01 00:00:00", "2020-01-02 00:00:00"⟩

/-- The spec's example timestamp `2024-01-01T10:00:00-05:00` after parsing. -/
def exDT : PyDatetime := ⟨2024, 1, 1, 10, 0, 0, -300⟩

/-- A release with two assets, used to exercise the upserter. -/
def exRelease : Release :=
  ⟨201, "release-1.0", "MacVim release 1.0", false, false,
    ⟨2024, 1, 1, 10, 0, 0, -300⟩, ⟨2024, 1, 1, 12, 0, 0, 0⟩,
    [⟨"app.zip", 5⟩, ⟨"app.dmg", 3⟩]⟩

/-- A release with no assets, used to exercise the zero-asset skip. -/
def exEmptyRelease : Release :=
  ⟨202, "release-2.0", "MacVim release 2.0", true, false,
    ⟨2024, 2, 1, 0, 0, 0, 0⟩, ⟨2024, 2, 1, 0, 0, 0, 0⟩, []⟩

/-- A Homebrew snapshot used by the appender scenario. -/
def exBrew : HomebrewInfo := ⟨"2024-01-01", "9.1.0", 1500, 1200⟩

/-- A second Homebrew snapshot used by the appender scenario. -/
def exBrew2 : HomebrewInfo := ⟨"2024-01-02", "9.1.0", 0, 7⟩

/-! ## Calendar arithmetic: `daysFromCivil` inverts `civilFromDays` -/

set_option maxHeartbeats 4000000 in
theorem doyBounds_all (doe : Int) (h0 : 0 ≤ doe) (h1 : doe ≤ 146096) : doyBoundsP doe := by
  unfold doyBoundsP
  rcases lt_or_le doe 73048 with hw73048 | hw73048
  ·
    rcases lt_or_le doe 36524 with hw36524 | hw36524
    ·
      rcases lt_or_le doe 18980 with hw18980 | hw18980
      ·
        rcases lt_or_le doe 8760 with hw8760 | hw8760
        ·
          rcases lt_or_le doe 4380 with hw4380 | hw4380
          ·
            rcases lt_or_le doe 1460 with hw1460 | hw1460
            ·
              have he : doe / 1460 = 0 := by omega
              have hf : doe / 36524 = 0 := by omega
              have hg : doe / 146096 = 0 := by omega
              rw [he, hf, hg]
              omega
            ·
              rcases lt_or_le doe 2920 with hw2920 | hw2920
              ·
                have he : doe / 1460 = 1 := by omega
                have hf : doe / 36524 = 0 := by omega
                have hg : doe / 146096 = 0 := by omega
                rw [he, hf, hg]
                omega
              ·
                have he : doe / 1460 = 2 := by omega
                have hf : doe / 36524 = 0 := by omega
                have hg : doe / 146096 = 0 := by omega
                rw [he, hf, hg]
                omega
          ·
            rcases lt_or_le doe 5840 with hw5840 | hw5840
            ·
              have he : doe / 1460 = 3 := by omega
              have hf : doe / 36524 = 0 := by omega
              have hg : doe / 146096 = 0 := by omega
              rw [he, hf, hg]
              omega
            ·
              rcases lt_or_le doe 7300 with hw7300 | hw7300
              ·
                have he : doe / 1460 = 4 := by omega
                have hf : doe / 36524 = 0 := by omega
                have hg : doe / 146096 = 0 := by omega
                rw [he, hf, hg]
                omega
              ·
                have he : doe / 1460 = 5 := by omega
                have hf : doe / 36524 = 0 := by omega
                have hg : doe / 146096 = 0 := by omega
                rw [he, hf, hg]
                omega
        ·
          rcases lt_or_le doe 13140 with hw13140 | hw13140
          ·
            rcases lt_or_le doe 10220 with hw10220 | hw10220
            ·
              have he : doe / 1460 = 6 := by omega
              have hf : doe / 36524 = 0 := by omega
              have hg : doe / 146096 = 0 := by omega
              rw [he, hf, hg]
              omega
            ·
              rcases lt_or_le doe 11680 with hw11680 | hw11680
              ·
                have he : doe / 1460 = 7 := by omega
                have hf : doe / 36524 = 0 := by omega
                have hg : doe / 146096 = 0 := by omega
                rw [he, hf, hg]
                omega
              ·
                have he : doe / 1460 = 8 := by omega
                have hf : doe / 36524 = 0 := by omega
                have hg : doe / 146096 = 0 := by omega
                rw [he, hf, hg]
                omega
          ·
            rcases lt_or_le doe 16060 with hw16060 | hw16060
            ·
              rcases lt_or_le doe 14600 with hw14600 | hw14600
              ·
                have he : doe / 1460 = 9 := by omega
                have hf : doe / 36524 = 0 := by omega
                have hg : doe / 146096 = 0 := by omega
                rw [he, hf, hg]
                omega
              ·
                have he : doe / 1460 = 10 := by omega
                have hf : doe / 36524 = 0 := by omega
                have hg : doe / 146096 = 0 := by omega
                rw [he, hf, hg]
                omega
            ·
              rcases lt_or_le doe 17520 with hw17520 | hw17520
              ·
                have he : doe / 1460 = 11 := by omega
                have hf : doe / 36524 = 0 := by omega
                have hg : doe / 146096 = 0 := by omega
                rw [he, hf, hg]
                omega
              ·
                have he : doe / 1460 = 12 := by omega
                have hf : doe / 36524 = 0 := by omega
                have hg : doe / 146096 = 0 := by omega
                rw [he, hf, hg]
                omega
      ·
        rcases lt_or_le doe 27740 with hw27740 | hw27740
        ·
          rcases lt_or_le doe 23360 with hw23360 | hw23360
          ·
            rcases lt_or_le doe 20440 with hw20440 | hw20440
            ·
              have he : doe / 1460 = 13 := by omega
              have hf : doe / 36524 = 0 := by omega
              have hg : doe / 146096 = 0 := by omega
              rw [he, hf, hg]
              omega
            ·
              rcases lt_or_le doe 21900 with hw21900 | hw21900
              ·
                have he : doe / 1460 = 14 := by omega
                have hf : doe / 36524 = 0 := by omega
                have hg : doe / 146096 = 0 := by omega
                rw [he, hf, hg]
                omega
              ·
                have he : doe / 1460 = 15 := by omega
                have hf : doe / 36524 = 0 := by omega
                have hg : doe / 146096 = 0 := by omega
                rw [he, hf, hg]
                omega
          ·
            rcases lt_or_le doe 24820 with hw24820 | hw24820
            ·
              have he : doe / 1460 = 16 := by omega
              have hf : doe / 36524 = 0 := by omega
              have hg : doe / 146096 = 0 := by omega
              rw [he, hf, hg]
              omega
            ·
              rcases lt_or_le doe 26280 with hw26280 | hw26280
              ·
                have he : doe / 1460 = 17 := by omega
                have hf : doe / 36524 = 0 := by omega
                have hg : doe / 146096 = 0 := by omega
                rw [he, hf, hg]
                omega
              ·
                have he : doe / 1460 = 18 := by omega
                have hf : doe / 36524 = 0 := by omega
                have hg : doe / 146096 = 0 := by omega
                rw [he, hf, hg]
                omega
        ·
          rcases lt_or_le doe 32120 with hw32120 | hw32120
          ·
            rcases lt_or_le doe 29200 with hw29200 | hw29200
            ·
              have he : doe / 1460 = 19 := by omega
              have hf : doe / 36524 = 0 := by omega
              have hg : doe / 146096 = 0 := by omega
              rw [he, hf, hg]
              omega
            ·
              rcases lt_or_le doe 30660 with hw30660 | hw30660
              ·
                have he : doe / 1460 = 20 := by omega
                have hf : doe / 36524 = 0 := by omega
                have hg : doe / 146096 = 0 := by omega
                rw [he, hf, hg]
                omega
              ·
                have he : doe / 1460 = 21 := by omega
                have hf : doe / 36524 = 0 := by omega
                have hg : doe / 146096 = 0 := by omega
                rw [he, hf, hg]
                omega
          ·
            rcases lt_or_le doe 35040 with hw35040 | hw35040
            ·
              rcases lt_or_le doe 33580 with hw33580 | hw33580
              ·
                have he : doe / 1460 = 22 := by omega
                have hf : doe / 36524 = 0 := by omega
                have hg : doe / 146096 = 0 := by omega
                rw [he, hf, hg]
                omega
              ·
                have he : doe / 1460 = 23 := by omega
                have hf : doe / 36524 = 0 := by omega
                have hg : doe / 146096 = 0 := by omega
                rw [he, hf, hg]
                omega
            ·
              rcases lt_or_le doe 36500 with hw36500 | hw36500
              ·
                have he : doe / 1460 = 24 := by omega
                have hf : doe / 36524 = 0 := by omega
                have hg : doe / 146096 = 0 := by omega
                rw [he, hf, hg]
                omega
              ·
                have he : doe / 1460 = 25 := by omega
                have hf : doe / 36524 = 0 := by omega
                have hg : doe / 146096 = 0 := by omega
                rw [he, hf, hg]
                omega
    ·
      rcases lt_or_le doe 55480 with hw55480 | hw55480
      ·
        rcases lt_or_le doe 45260 with hw45260 | hw45260
        ·
          rcases lt_or_le doe 40880 with hw40880 | hw40880
          ·
            rcases lt_or_le doe 37960 with hw37960 | hw37960
            ·
              have he : doe / 1460 = 25 := by omega
              have hf : doe / 36524 = 1 := by omega
              have hg : doe / 146096 = 0 := by omega
              rw [he, hf, hg]
              omega
            ·
              rcases lt_or_le doe 39420 with hw39420 | hw39420
              ·
                have he : doe / 1460 = 26 := by omega
                have hf : doe / 36524 = 1 := by omega
                have hg : doe / 146096 = 0 := by omega
                rw [he, hf, hg]
                omega
              ·
                have he : doe / 1460 = 27 := by omega
                have hf : doe / 36524 = 1 := by omega
                have hg : doe / 146096 = 0 := by omega
                rw [he, hf, hg]
                omega
          ·
            rcases lt_or_le doe 42340 with hw42340 | hw42340
            ·
              have he : doe / 1460 = 28 := by omega
              have hf : doe / 36524 = 1 := by omega
              have hg : doe / 146096 = 0 := by omega
              rw [he, hf, hg]
              omega
            ·
              rcases lt_or_le doe 43800 with hw43800 | hw43800
              ·
                have he : doe / 1460 = 29 := by omega
                have hf : doe / 36524 = 1 := by omega
                have hg : doe / 146096 = 0 := by omega
                rw [he, hf, hg]
                omega
              ·
                have he : doe / 1460 = 30 := by omega
                have hf : doe / 36524 = 1 := by omega
                have hg : doe / 146096 = 0 := by omega
                rw [he, hf, hg]
                omega
        ·
          rcases lt_or_le doe 49640 with hw49640 | hw49640
          ·
            rcases lt_or_le doe 46720 with hw46720 | hw46720
            ·
              have he : doe / 1460 = 31 := by omega
              have hf : doe / 36524 = 1 := by omega
              have hg : doe / 146096 = 0 := by omega
              rw [he, hf, hg]
              omega
            ·
              rcases lt_or_le doe 48180 with hw48180 | hw48180
              ·
                have he : doe / 1460 = 32 := by omega
                have hf : doe / 36524 = 1 := by omega
                have hg : doe / 146096 = 0 := by omega
                rw [he, hf, hg]
                omega
              ·
                have he : doe / 1460 = 33 := by omega
                have hf : doe / 36524 = 1 := by omega
                have hg : doe / 146096 = 0 := by omega
                rw [he, hf, hg]
                omega
          ·
            rcases lt_or_le doe 52560 with hw52560 | hw52560
            ·
              rcases lt_or_le doe 51100 with hw51100 | hw51100
              ·
                have he : doe / 1460 = 34 := by omega
                have hf : doe / 36524 = 1 := by omega
                have hg : doe / 146096 = 0 := by omega
                rw [he, hf, hg]
                omega
              ·
                have he : doe / 1460 = 35 := by omega
                have hf : doe / 36524 = 1 := by omega
                have hg : doe / 146096 = 0 := by omega
                rw [he, hf, hg]
                omega
            ·
              rcases lt_or_le doe 54020 with hw54020 | hw54020
              ·
                have he : doe / 1460 = 36 := by omega
                have hf : doe / 36524 = 1 := by omega
                have hg : doe / 146096 = 0 := by omega
                rw [he, hf, hg]
                omega
              ·
                have he : doe / 1460 = 37 := by omega
                have hf : doe / 36524 = 1 := by omega
                have hg : doe / 146096 = 0 := by omega
                rw [he, hf, hg]
                omega
      ·
        rcases lt_or_le doe 64240 with hw64240 | hw64240
        ·
          rcases lt_or_le doe 59860 with hw59860 | hw59860
          ·
            rcases lt_or_le doe 56940 with hw56940 | hw56940
            ·
              have he : doe / 1460 = 38 := by omega
              have hf : doe / 36524 = 1 := by omega
              have hg : doe / 146096 = 0 := by omega
              rw [he, hf, hg]
              omega
            ·
              rcases lt_or_le doe 58400 with hw58400 | hw58400
              ·
                have he : doe / 1460 = 39 := by omega
                have hf : doe / 36524 = 1 := by omega
                have hg : doe / 146096 = 0 := by omega
                rw [he, hf, hg]
                omega
              ·
                have he : doe / 1460 = 40 := by omega
                have hf : doe / 36524 = 1 := by omega
                have hg : doe / 146096 = 0 := by omega
                rw [he, hf, hg]
                omega
          ·
            rcases lt_or_le doe 61320 with hw61320 | hw61320
            ·
              have he : doe / 1460 = 41 := by omega
              have hf : doe / 36524 = 1 := by omega
              have hg : doe / 146096 = 0 := by omega
              rw [he, hf, hg]
              omega
            ·
              rcases lt_or_le doe 62780 with hw62780 | hw62780
              ·
                have he : doe / 1460 = 42 := by omega
                have hf : doe / 36524 = 1 := by omega
                have hg : doe / 146096 = 0 := by omega
                rw [he, hf, hg]
                omega
              ·
                have he : doe / 1460 = 43 := by omega
                have hf : doe / 36524 = 1 := by omega
                have hg : doe / 146096 = 0 := by omega
                rw [he, hf, hg]
                omega
        ·
          rcases lt_or_le doe 68620 with hw68620 | hw68620
          ·
            rcases lt_or_le doe 65700 with hw65700 | hw65700
            ·
              have he : doe / 1460 = 44 := by omega
              have hf : doe / 36524 = 1 := by omega
              have hg : doe / 146096 = 0 := by omega
              rw [he, hf, hg]
              omega
            ·
              rcases lt_or_le doe 67160 with hw67160 | hw67160
              ·
                have he : doe / 1460 = 45 := by omega
                have hf : doe / 36524 = 1 := by omega
                have hg : doe / 146096 = 0 := by omega
                rw [he, hf, hg]
                omega
              ·
                have he : doe / 1460 = 46 := by omega
                have hf : doe / 36524 = 1 := by omega
                have hg : doe / 146096 = 0 := by omega
                rw [he, hf, hg]
                omega
          ·
            rcases lt_or_le doe 71540 with hw71540 | hw71540
            ·
              rcases lt_or_le doe 70080 with hw70080 | hw70080
              ·
                have he : doe / 1460 = 47 := by omega
                have hf : doe / 36524 = 1 := by omega
                have hg : doe / 146096 = 0 := by omega
                rw [he, hf, hg]
                omega
              ·
                have he : doe / 1460 = 48 := by omega
                have hf : doe / 36524 = 1 := by omega
                have hg : doe / 146096 = 0 := by omega
                rw [he, hf, hg]
                omega
            ·
              rcases lt_or_le doe 73000 with hw73000 | hw73000
              ·
                have he : doe / 1460 = 49 := by omega
                have hf : doe / 36524 = 1 := by omega
                have hg : doe / 146096 = 0 := by omega
                rw [he, hf, hg]
                omega
              ·
                have he : doe / 1460 = 50 := by omega
                have hf : doe / 36524 = 1 := by omega
                have hg : doe / 146096 = 0 := by omega
                rw [he, hf, hg]
                omega
  ·
    rcases lt_or_le doe 109572 with hw109572 | hw109572
    ·
      rcases lt_or_le doe 91980 with hw91980 | hw91980
      ·
        rcases lt_or_le doe 81760 with hw81760 | hw81760
        ·
          rcases lt_or_le doe 77380 with hw77380 | hw77380
          ·
            rcases lt_or_le doe 74460 with hw74460 | hw74460
            ·
              have he : doe / 1460 = 50 := by omega
              have hf : doe / 36524 = 2 := by omega
              have hg : doe / 146096 = 0 := by omega
              rw [he, hf, hg]
              omega
            ·
              rcases lt_or_le doe 75920 with hw75920 | hw75920
              ·
                have he : doe / 1460 = 51 := by omega
                have hf : doe / 36524 = 2 := by omega
                have hg : doe / 146096 = 0 := by omega
                rw [he, hf, hg]
                omega
              ·
                have he : doe / 1460 = 52 := by omega
                have hf : doe / 36524 = 2 := by omega
                have hg : doe / 146096 = 0 := by omega
                rw [he, hf, hg]
                omega
          ·
            rcases lt_or_le doe 78840 with hw78840 | hw78840
            ·
              have he : doe / 1460 = 53 := by omega
              have hf : doe / 36524 = 2 := by omega
              have hg : doe / 146096 = 0 := by omega
              rw [he, hf, hg]
              omega
            ·
              rcases lt_or_le doe 80300 with hw80300 | hw80300
              ·
                have he : doe / 1460 = 54 := by omega
                have hf : doe / 36524 = 2 := by omega
                have hg : doe / 146096 = 0 := by omega
                rw [he, hf, hg]
                omega
              ·
                have he : doe / 1460 = 55 := by omega
                have hf : doe / 36524 = 2 := by omega
                have hg : doe / 146096 = 0 := by omega
                rw [he, hf, hg]
                omega
        ·
          rcases lt_or_le doe 86140 with hw86140 | hw86140
          ·
            rcases lt_or_le doe 83220 with hw83220 | hw83220
            ·
              have he : doe / 1460 = 56 := by omega
              have hf : doe / 36524 = 2 := by omega
              have hg : doe / 146096 = 0 := by omega
              rw [he, hf, hg]
              omega
            ·
              rcases lt_or_le doe 84680 with hw84680 | hw84680
              ·
                have he : doe / 1460 = 57 := by omega
                have hf : doe / 36524 = 2 := by omega
                have hg : doe / 146096 = 0 := by omega
                rw [he, hf, hg]
                omega
              ·
                have he : doe / 1460 = 58 := by omega
                have hf : doe / 36524 = 2 := by omega
                have hg : doe / 146096 = 0 := by omega
                rw [he, hf, hg]
                omega
          ·
            rcases lt_or_le doe 89060 with hw89060 | hw89060
            ·
              rcases lt_or_le doe 87600 with hw87600 | hw87600
              ·
                have he : doe / 1460 = 59 := by omega
                have hf : doe / 36524 = 2 := by omega
                have hg : doe / 146096 = 0 := by omega
                rw [he, hf, hg]
                omega
              ·
                have he : doe / 1460 = 60 := by omega
                have hf : doe / 36524 = 2 := by omega
                have hg : doe / 146096 = 0 := by omega
                rw [he, hf, hg]
                omega
            ·
              rcases lt_or_le doe 90520 with hw90520 | hw90520
              ·
                have he : doe / 1460 = 61 := by omega
                have hf : doe / 36524 = 2 := by omega
                have hg : doe / 146096 = 0 := by omega
                rw [he, hf, hg]
                omega
              ·
                have he : doe / 1460 = 62 := by omega
                have hf : doe / 36524 = 2 := by omega
                have hg : doe / 146096 = 0 := by omega
                rw [he, hf, hg]
                omega
      ·
        rcases lt_or_le doe 100740 with hw100740 | hw100740
        ·
          rcases lt_or_le doe 96360 with hw96360 | hw96360
          ·
            rcases lt_or_le doe 93440 with hw93440 | hw93440
            ·
              have he : doe / 1460 = 63 := by omega
              have hf : doe / 36524 = 2 := by omega
              have hg : doe / 146096 = 0 := by omega
              rw [he, hf, hg]
              omega
            ·
              rcases lt_or_le doe 94900 with hw94900 | hw94900
              ·
                have he : doe / 1460 = 64 := by omega
                have hf : doe / 36524 = 2 := by omega
                have hg : doe / 146096 = 0 := by omega
                rw [he, hf, hg]
                omega
              ·
                have he : doe / 1460 = 65 := by omega
                have hf : doe / 36524 = 2 := by omega
                have hg : doe / 146096 = 0 := by omega
                rw [he, hf, hg]
                omega
          ·
            rcases lt_or_le doe 97820 with hw97820 | hw97820
            ·
              have he : doe / 1460 = 66 := by omega
              have hf : doe / 36524 = 2 := by omega
              have hg : doe / 146096 = 0 := by omega
              rw [he, hf, hg]
              omega
            ·
              rcases lt_or_le doe 99280 with hw99280 | hw99280
              ·
                have he : doe / 1460 = 67 := by omega
                have hf : doe / 36524 = 2 := by omega
                have hg : doe / 146096 = 0 := by omega
                rw [he, hf, hg]
                omega
              ·
                have he : doe / 1460 = 68 := by omega
                have hf : doe / 36524 = 2 := by omega
                have hg : doe / 146096 = 0 := by omega
                rw [he, hf, hg]
                omega
        ·
          rcases lt_or_le doe 105120 with hw105120 | hw105120
          ·
            rcases lt_or_le doe 102200 with hw102200 | hw102200
            ·
              have he : doe / 1460 = 69 := by omega
              have hf : doe / 36524 = 2 := by omega
              have hg : doe / 146096 = 0 := by omega
              rw [he, hf, hg]
              omega
            ·
              rcases lt_or_le doe 103660 with hw103660 | hw103660
              ·
                have he : doe / 1460 = 70 := by omega
                have hf : doe / 36524 = 2 := by omega
                have hg : doe / 146096 = 0 := by omega
                rw [he, hf, hg]
                omega
              ·
                have he : doe / 1460 = 71 := by omega
                have hf : doe / 36524 = 2 := by omega
                have hg : doe / 146096 = 0 := by omega
                rw [he, hf, hg]
                omega
          ·
            rcases lt_or_le doe 108040 with hw108040 | hw108040
            ·
              rcases lt_or_le doe 106580 with hw106580 | hw106580
              ·
                have he : doe / 1460 = 72 := by omega
                have hf : doe / 36524 = 2 := by omega
                have hg : doe / 146096 = 0 := by omega
                rw [he, hf, hg]
                omega
              ·
                have he : doe / 1460 = 73 := by omega
                have hf : doe / 36524 = 2 := by omega
                have hg : doe / 146096 = 0 := by omega
                rw [he, hf, hg]
                omega
            ·
              rcases lt_or_le doe 109500 with hw109500 | hw109500
              ·
                have he : doe / 1460 = 74 := by omega
                have hf : doe / 36524 = 2 := by omega
                have hg : doe / 146096 = 0 := by omega
                rw [he, hf, hg]
                omega
              ·
                have he : doe / 1460 = 75 := by omega
                have hf : doe / 36524 = 2 := by omega
                have hg : doe / 146096 = 0 := by omega
                rw [he, hf, hg]
                omega
    ·
      rcases lt_or_le doe 128480 with hw128480 | hw128480
      ·
        rcases lt_or_le doe 118260 with hw118260 | hw118260
        ·
          rcases lt_or_le doe 113880 with hw113880 | hw113880
          ·
            rcases lt_or_le doe 110960 with hw110960 | hw110960
            ·
              have he : doe / 1460 = 75 := by omega
              have hf : doe / 36524 = 3 := by omega
              have hg : doe / 146096 = 0 := by omega
              rw [he, hf, hg]
              omega
            ·
              rcases lt_or_le doe 112420 with hw112420 | hw112420
              ·
                have he : doe / 1460 = 76 := by omega
                have hf : doe / 36524 = 3 := by omega
                have hg : doe / 146096 = 0 := by omega
                rw [he, hf, hg]
                omega
              ·
                have he : doe / 1460 = 77 := by omega
                have hf : doe / 36524 = 3 := by omega
                have hg : doe / 146096 = 0 := by omega
                rw [he, hf, hg]
                omega
          ·
            rcases lt_or_le doe 115340 with hw115340 | hw115340
            ·
              have he : doe / 1460 = 78 := by omega
              have hf : doe / 36524 = 3 := by omega
              have hg : doe / 146096 = 0 := by omega
              rw [he, hf, hg]
              omega
            ·
              rcases lt_or_le doe 116800 with hw116800 | hw116800
              ·
                have he : doe / 1460 = 79 := by omega
                have hf : doe / 36524 = 3 := by omega
                have hg : doe / 146096 = 0 := by omega
                rw [he, hf, hg]
                omega
              ·
                have he : doe / 1460 = 80 := by omega
                have hf : doe / 36524 = 3 := by omega
                have hg : doe / 146096 = 0 := by omega
                rw [he, hf, hg]
                omega
        ·
          rcases lt_or_le doe 122640 with hw122640 | hw122640
          ·
            rcases lt_or_le doe 119720 with hw119720 | hw119720
            ·
              have he : doe / 1460 = 81 := by omega
              have hf : doe / 36524 = 3 := by omega
              have hg : doe / 146096 = 0 := by omega
              rw [he, hf, hg]
              omega
            ·
              rcases lt_or_le doe 121180 with hw121180 | hw121180
              ·
                have he : doe / 1460 = 82 := by omega
                have hf : doe / 36524 = 3 := by omega
                have hg : doe / 146096 = 0 := by omega
                rw [he, hf, hg]
                omega
              ·
                have he : doe / 1460 = 83 := by omega
                have hf : doe / 36524 = 3 := by omega
                have hg : doe / 146096 = 0 := by omega
                rw [he, hf, hg]
                omega
          ·
            rcases lt_or_le doe 125560 with hw125560 | hw125560
            ·
              rcases lt_or_le doe 124100 with hw124100 | hw124100
              ·
                have he : doe / 1460 = 84 := by omega
                have hf : doe / 36524 = 3 := by omega
                have hg : doe / 146096 = 0 := by omega
                rw [he, hf, hg]
                omega
              ·
                have he : doe / 1460 = 85 := by omega
                have hf : doe / 36524 = 3 := by omega
                have hg : doe / 146096 = 0 := by omega
                rw [he, hf, hg]
                omega
            ·
              rcases lt_or_le doe 127020 with hw127020 | hw127020
              ·
                have he : doe / 1460 = 86 := by omega
                have hf : doe / 36524 = 3 := by omega
                have hg : doe / 146096 = 0 := by omega
                rw [he, hf, hg]
                omega
              ·
                have he : doe / 1460 = 87 := by omega
                have hf : doe / 36524 = 3 := by omega
                have hg : doe / 146096 = 0 := by omega
                rw [he, hf, hg]
                omega
      ·
        rcases lt_or_le doe 138700 with hw138700 | hw138700
        ·
          rcases lt_or_le doe 132860 with hw132860 | hw132860
          ·
            rcases lt_or_le doe 129940 with hw129940 | hw129940
            ·
              have he : doe / 1460 = 88 := by omega
              have hf : doe / 36524 = 3 := by omega
              have hg : doe / 146096 = 0 := by omega
              rw [he, hf, hg]
              omega
            ·
              rcases lt_or_le doe 131400 with hw131400 | hw131400
              ·
                have he : doe / 1460 = 89 := by omega
                have hf : doe / 36524 = 3 := by omega
                have hg : doe / 146096 = 0 := by omega
                rw [he, hf, hg]
                omega
              ·
                have he : doe / 1460 = 90 := by omega
                have hf : doe / 36524 = 3 := by omega
                have hg : doe / 146096 = 0 := by omega
                rw [he, hf, hg]
                omega
          ·
            rcases lt_or_le doe 135780 with hw135780 | hw135780
            ·
              rcases lt_or_le doe 134320 with hw134320 | hw134320
              ·
                have he : doe / 1460 = 91 := by omega
                have hf : doe / 36524 = 3 := by omega
                have hg : doe / 146096 = 0 := by omega
                rw [he, hf, hg]
                omega
              ·
                have he : doe / 1460 = 92 := by omega
                have hf : doe / 36524 = 3 := by omega
                have hg : doe / 146096 = 0 := by omega
                rw [he, hf, hg]
                omega
            ·
              rcases lt_or_le doe 137240 with hw137240 | hw137240
              ·
                have he : doe / 1460 = 93 := by omega
                have hf : doe / 36524 = 3 := by omega
                have hg : doe / 146096 = 0 := by omega
                rw [he, hf, hg]
                omega
              ·
                have he : doe / 1460 = 94 := by omega
                have hf : doe / 36524 = 3 := by omega
                have hg : doe / 146096 = 0 := by omega
                rw [he, hf, hg]
                omega
        ·
          rcases lt_or_le doe 143080 with hw143080 | hw143080
          ·
            rcases lt_or_le doe 140160 with hw140160 | hw140160
            ·
              have he : doe / 1460 = 95 := by omega
              have hf : doe / 36524 = 3 := by omega
              have hg : doe / 146096 = 0 := by omega
              rw [he, hf, hg]
              omega
            ·
              rcases lt_or_le doe 141620 with hw141620 | hw141620
              ·
                have he : doe / 1460 = 96 := by omega
                have hf : doe / 36524 = 3 := by omega
                have hg : doe / 146096 = 0 := by omega
                rw [he, hf, hg]
                omega
              ·
                have he : doe / 1460 = 97 := by omega
                have hf : doe / 36524 = 3 := by omega
                have hg : doe / 146096 = 0 := by omega
                rw [he, hf, hg]
                omega
          ·
            rcases lt_or_le doe 146000 with hw146000 | hw146000
            ·
              rcases lt_or_le doe 144540 with hw144540 | hw144540
              ·
                have he : doe / 1460 = 98 := by omega
                have hf : doe / 36524 = 3 := by omega
                have hg : doe / 146096 = 0 := by omega
                rw [he, hf, hg]
                omega
              ·
                have he : doe / 1460 = 99 := by omega
                have hf : doe / 36524 = 3 := by omega
                have hg : doe / 146096 = 0 := by omega
                rw [he, hf, hg]
                omega
            ·
              rcases lt_or_le doe 146096 with hw146096 | hw146096
              ·
                have he : doe / 1460 = 100 := by omega
                have hf : doe / 36524 = 3 := by omega
                have hg : doe / 146096 = 0 := by omega
                rw [he, hf, hg]
                omega
              ·
                have he : doe / 1460 = 100 := by omega
                have hf : doe / 36524 = 4 := by omega
                have hg : doe / 146096 = 1 := by omega
                rw [he, hf, hg]
                omega

set_option maxHeartbeats 1000000 in
theorem roundtrip_core (z era doe yoe doy mp d m y : Int)
    (h1 : era = (z + 719468) / 146097)
    (h2 : doe = z + 719468 - era * 146097)
    (h3 : yoe = (doe - doe / 1460 + doe / 36524 - doe / 146096) / 365)
    (h4 : doy = doe - (365 * yoe + yoe / 4 - yoe / 100))
    (h5 : mp = (5 * doy + 2) / 153)
    (h6 : d = doy - (153 * mp + 2) / 5 + 1)
    (h7 : m = (if mp < 10 then mp + 3 else mp - 9))
    (h8 : y = (if m ≤ 2 then yoe + era * 400 + 1 else yoe + era * 400)) :
    daysFromCivil y m d = z := by
  have key := doyBounds_all doe (by omega) (by omega)
  unfold doyBoundsP at key
  rw [← h3, ← h4] at key
  have hmp : 0 ≤ mp ∧ mp ≤ 11 := by omega
  rcases lt_or_le mp 10 with hml | hml
  · have hm7 : m = mp + 3 := by rw [h7, if_pos hml]
    have hm2 : ¬ m ≤ 2 := by omega
    have hy : y = yoe + era * 400 := by rw [h8, if_neg hm2]
    have h2m : 2 < m := by omega
    simp only [daysFromCivil, if_neg hm2, if_pos h2m, sub_zero]
    have e1 : y / 400 = era := by omega
    rw [e1]
    have e2 : (153 * (m - 3) + 2) / 5 = (153 * mp + 2) / 5 := by omega
    rw [e2]
    have e3 : (y - era * 400) / 4 = yoe / 4 := by omega
    have e4 : (y - era * 400) / 100 = yoe / 100 := by omega
    rw [e3, e4]
    omega
  · have hm7 : m = mp - 9 := by rw [h7, if_neg (by omega)]
    have hm2 : m ≤ 2 := by omega
    have hy : y = yoe + era * 400 + 1 := by rw [h8, if_pos hm2]
    have h2m : ¬ 2 < m := by omega
    simp only [daysFromCivil, if_pos hm2, if_neg h2m]
    have e1 : (y - 1) / 400 = era := by omega
    rw [e1]
    have e2 : (153 * (m + 9) + 2) / 5 = (153 * mp + 2) / 5 := by omega
    rw [e2]
    have e3 : (y - 1 - era * 400) / 4 = yoe / 4 := by omega
    have e4 : (y - 1 - era * 400) / 100 = yoe / 100 := by omega
    rw [e3, e4]
    omega

theorem civil_roundtrip (z : Int) :
    daysFromCivil (civilFromDays z).1 (civilFromDays z).2.1 (civilFromDays z).2.2 = z := by
  simp only [civilFromDays]
  exact roundtrip_core z _ _ _ _ _ _ _ _ rfl rfl rfl rfl rfl rfl rfl rfl

theorem toInstant_fromInstantUtc (i : Int) : toInstant (fromInstantUtc i) = i := by
  simp only [toInstant, fromInstantUtc, civil_roundtrip]
  omega

/-! ## List helper lemmas -/

theorem lookupLast_of_not_mem {α : Type} (l : List (String × α)) (k : String)
    (h : ∀ p ∈ l, p.1 ≠ k) : lookupLast l k = none := by
  induction l with
  | nil => rfl
  | cons p t ih =>
    obtain ⟨k1, v⟩ := p
    have ht : lookupLast t k = none := ih fun q hq => h q (List.mem_cons_of_mem _ hq)
    have hk : k1 ≠ k := h ⟨k1, v⟩ (List.mem_cons_self _ _)
    simp [lookupLast, ht, hk]

theorem lookupLast_asset_eq (assets : List Asset) (a : Asset)
    (hnd : (assets.map (·.name)).Nodup) (ha : a ∈ assets) :
    lookupLast (assets.map fun x => (x.name, x.download_count)) a.name
      = some a.download_count := by
  induction assets with
  | nil => cases ha
  | cons b t ih =>
    simp only [List.map_cons, List.nodup_cons] at hnd
    rcases List.mem_cons.mp ha with h | hat
    · subst h
      have hnone : lookupLast (t.map fun x => (x.name, x.download_count)) a.name = none := by
        refine lookupLast_of_not_mem _ _ ?_
        intro p hp
        obtain ⟨x, hx, rfl⟩ := List.mem_map.mp hp
        intro hcontra
        exact hnd.1 (hcontra ▸ List.mem_map_of_mem (·.name) hx)
      simp [lookupLast, hnone]
    · have := ih hnd.2 hat
      simp [lookupLast, this]

theorem lookupLast_asset_none (assets : List Asset) (n : String)
    (h : n ∉ assets.map (·.name)) :
    lookupLast (assets.map fun x => (x.name, x.download_count)) n = none := by
  refine lookupLast_of_not_mem _ _ ?_
  intro p hp
  obtain ⟨x, hx, rfl⟩ := List.mem_map.mp hp
  intro hcontra
  exact h (hcontra ▸ List.mem_map_of_mem (·.name) hx)

/-! ## Claim theorems -/

/-- C6: a release timestamp carrying a non-UTC offset is normalized to the
same absolute instant expressed in UTC (offset 0), rendered by
`strftime("%Y-%m-%d %H:%M:%S")` with no zone designator; in particular the
input `2024-01-01T10:00:00-05:00` is stored as `"2024-01-01 15:00:00"`. -/
theorem c6_timestamp_utc_normalization (dt : PyDatetime) (hoff : dt.offsetMinutes ≠ 0) :
    toInstant (pyAstimezoneUtc dt) = toInstant dt
    ∧ (pyAstimezoneUtc dt).offsetMinutes = 0
    ∧ fixupTimestamp dt = pyStrftime (pyAstimezoneUtc dt)
    ∧ fixupTimestamp exDT = "2024-01-01 15:00:00" := by
  refine ⟨toInstant_fromInstantUtc _, rfl, rfl, ?_⟩
  decide

/-- Witness for C6 at the spec's example input. -/
theorem c6_witness :
    exDT.offsetMinutes ≠ 0 ∧ toInstant (pyAstimezoneUtc exDT) = toInstant exDT :=
  ⟨by decide, (c6_timestamp_utc_normalization exDT (by decide)).1⟩

/-- C7: in every observation row the upserter writes, the cell of a column
that names an asset present in the snapshot is that asset's download count
rendered in decimal (count 0 gives `"0"`), the cell of a column absent from
the snapshot is the empty string, and the timestamp column gets the run
timestamp; `"0"` and `""` are distinct, so a zero count is never confused
with an absent asset. -/
theorem c7_observation_row_cells (now : String) (assets : List Asset)
    (hnd : (assets.map (·.name)).Nodup) :
    (∀ a ∈ assets, a.name ≠ utc_date_header →
        obsCell now assets a.name = Nat.repr a.download_count)
    ∧ (∀ n, n ∉ assets.map (·.name) → n ≠ utc_date_header → obsCell now assets n = "")
    ∧ obsCell now assets utc_date_header = now
    ∧ Nat.repr 0 = "0" ∧ ("0" : String) ≠ "" := by
  refine ⟨?_, ?_, by simp [obsCell], rfl, by decide⟩
  · intro a ha hne
    simp [obsCell, hne, lookupLast_asset_eq assets a hnd ha]
  · intro n hn hne
    simp [obsCell, hne, lookupLast_asset_none assets n hn]

/-- Witness for C7 at a two-asset snapshot with a zero count. -/
theorem c7_witness :
    ((([⟨"app.zip", 5⟩, ⟨"app.dmg", 0⟩] : List Asset).map (·.name)).Nodup)
    ∧ obsCell "t0" [⟨"app.zip", 5⟩, ⟨"app.dmg", 0⟩] "app.dmg" = Nat.repr 0 := by
  constructor
  · decide
  · exact (c7_observation_row_cells "t0" [⟨"app.zip", 5⟩, ⟨"app.dmg", 0⟩]
      (by decide)).1 ⟨"app.dmg", 0⟩ (by decide) (by decide)

/-- C9: each run of the Homebrew appender appends exactly one fixed-schema
row, creating the file with its header only when the file is absent;
previously stored rows are passed through unchanged (no rewrite, no
deduplication), so two consecutive runs yield the header followed by the two
appended rows. -/
theorem c9_homebrew_strict_append (now now2 : String) (f f2 : HomebrewInfo)
    (rows : List (List String)) :
    query_homebrew_installs now f none = [homebrewHeader, homebrewRow now f]
    ∧ query_homebrew_installs now2 f2 (some rows) = rows ++ [homebrewRow now2 f2]
    ∧ query_homebrew_installs now2 f2 (some (query_homebrew_installs now f none))
        = [homebrewHeader, homebrewRow now f, homebrewRow now2 f2] :=
  ⟨rfl, rfl, rfl⟩

/-! ## Sort and merge lemmas for the metadata table -/

theorem contains_false_of_not_mem {l : List String} {a : String} (h : a ∉ l) :
    l.contains a = false := by
  cases hb : l.contains a
  · rfl
  · exact absurd (List.elem_iff.mp hb) h

theorem insertRow_perm (a : MetaRow) (l : List MetaRow) :
    List.Perm (insertRow a l) (a :: l) := by
  induction l with
  | nil => exact List.Perm.refl _
  | cons b bs ih =>
    simp only [insertRow]
    split
    · exact List.Perm.refl _
    · exact (ih.cons b).trans (List.Perm.swap a b bs)

theorem sortRows_aux_perm (l : List MetaRow) :
    ∀ acc, List.Perm (l.foldl (fun acc a => insertRow a acc) acc) (acc ++ l) := by
  induction l with
  | nil => intro acc; simpa using List.Perm.refl acc
  | cons a t ih =>
    intro acc
    simp only [List.foldl_cons]
    refine ((ih (insertRow a acc)).trans ?_)
    refine ((insertRow_perm a acc).append_right t).trans ?_
    exact List.perm_middle.symm

theorem sortRows_perm (l : List MetaRow) : List.Perm (sortRows l) l :=
  sortRows_aux_perm l []

theorem allOld_map_old (l : List StoredMeta) : (l.map MetaRow.old).all isOldRow = true := by
  rw [List.all_eq_true]
  intro x hx
  obtain ⟨r, hr, rfl⟩ := List.mem_map.mp hx
  rfl

theorem allNew_map_new (l : List ReleaseMeta) : (l.map MetaRow.new).all isNewRow = true := by
  rw [List.all_eq_true]
  intro x hx
  obtain ⟨r, hr, rfl⟩ := List.mem_map.mp hx
  rfl

theorem rowsHomogeneous_old (l : List StoredMeta) :
    rowsHomogeneous (l.map MetaRow.old) = true := by
  simp [rowsHomogeneous, allOld_map_old]

theorem rowsHomogeneous_new (l : List ReleaseMeta) :
    rowsHomogeneous (l.map MetaRow.new) = true := by
  simp [rowsHomogeneous, allNew_map_new]

theorem rowsHomogeneous_mixed (o : StoredMeta) (ol : List StoredMeta)
    (k : ReleaseMeta) (kl : List ReleaseMeta) :
    rowsHomogeneous ((o :: ol).map MetaRow.old ++ (k :: kl).map MetaRow.new) = false := by
  simp [rowsHomogeneous, List.all_append, isOldRow, isNewRow]

theorem map_idStr_old (l : List StoredMeta) :
    (l.map MetaRow.old).map metaIdStr = l.map StoredMeta.id := by
  rw [List.map_map]
  rfl

theorem map_idStr_new (l : List ReleaseMeta) :
    (l.map MetaRow.new).map metaIdStr = l.map fun r => Nat.repr r.id := by
  rw [List.map_map]
  rfl

/-- C4: whatever a run of the metadata writer leaves in the table, every
previously stored row is still present with its fields unchanged, the row
count has not decreased, the identifier cells are pairwise distinct, and a
freshly fetched record whose identifier is already stored never enters the
table.  (On the TypeError path the table file is simply not rewritten.) -/
theorem c4_metadata_merge_invariants (oldRows : List StoredMeta) (fetched : List ReleaseMeta)
    (hOld : (oldRows.map StoredMeta.id).Nodup)
    (hNew : (fetched.map fun r => Nat.repr r.id).Nodup) :
    (∀ r ∈ oldRows, MetaRow.old r ∈ finalReleasesTable (some oldRows) fetched)
    ∧ oldRows.length ≤ (finalReleasesTable (some oldRows) fetched).length
    ∧ ((finalReleasesTable (some oldRows) fetched).map metaIdStr).Nodup
    ∧ (∀ m ∈ fetched, Nat.repr m.id ∈ oldRows.map StoredMeta.id →
        MetaRow.new m ∉ finalReleasesTable (some oldRows) fetched)
    ∧ ((finalReleasesTable none fetched).map metaIdStr).Nodup := by
  have hnone : ((finalReleasesTable none fetched).map metaIdStr).Nodup := by
    have hm : mergedRows none fetched = fetched.map MetaRow.new := rfl
    have hT : finalReleasesTable none fetched = sortRows (fetched.map MetaRow.new) := by
      simp only [finalReleasesTable, writeReleasesTable, pySortedRows]
      rw [hm, rowsHomogeneous_new]
      simp
    rw [hT, ((sortRows_perm _).map metaIdStr).nodup_iff, map_idStr_new]
    exact hNew
  rcases hk : fetched.filter (fun r => !((oldRows.map (·.id)).contains (Nat.repr r.id)))
    with _ | ⟨k0, kl⟩
  · have hm : mergedRows (some oldRows) fetched = oldRows.map MetaRow.old := by
      simp only [mergedRows]
      rw [hk]
      simp
    have hT : finalReleasesTable (some oldRows) fetched = sortRows (oldRows.map MetaRow.old) := by
      simp only [finalReleasesTable, writeReleasesTable, pySortedRows]
      rw [hm, rowsHomogeneous_old]
      simp
    have hperm := sortRows_perm (oldRows.map MetaRow.old)
    refine ⟨?_, ?_, ?_, ?_, hnone⟩
    · intro r hr
      rw [hT]
      exact hperm.mem_iff.mpr (List.mem_map_of_mem _ hr)
    · rw [hT, hperm.length_eq, List.length_map]
    · rw [hT, (hperm.map metaIdStr).nodup_iff, map_idStr_old]
      exact hOld
    · intro m hm hmem2
      rw [hT]
      intro hcontra
      obtain ⟨r, _, heq⟩ := List.mem_map.mp (hperm.mem_iff.mp hcontra)
      cases heq
  · rcases oldRows with _ | ⟨o, ol⟩
    · have hm : mergedRows (some []) fetched = (k0 :: kl).map MetaRow.new := by
        simp only [mergedRows]
        rw [hk]
        simp
      have hT : finalReleasesTable (some []) fetched = sortRows ((k0 :: kl).map MetaRow.new) := by
        simp only [finalReleasesTable, writeReleasesTable, pySortedRows]
        rw [hm, rowsHomogeneous_new]
        simp
      have hperm := sortRows_perm ((k0 :: kl).map MetaRow.new)
      refine ⟨?_, ?_, ?_, ?_, hnone⟩
      · intro r hr
        cases hr
      · simp
      · rw [hT, (hperm.map metaIdStr).nodup_iff, map_idStr_new]
        have hsub : List.Sublist (k0 :: kl) fetched := by
          rw [← hk]
          exact List.filter_sublist fetched
        exact hNew.sublist (hsub.map _)
      · intro m hm2 hmem2
        exact absurd hmem2 (by simp)
    · have hm : mergedRows (some (o :: ol)) fetched
          = (o :: ol).map MetaRow.old ++ (k0 :: kl).map MetaRow.new := by
        simp only [mergedRows]
        rw [hk]
      have hT : finalReleasesTable (some (o :: ol)) fetched = (o :: ol).map MetaRow.old := by
        simp only [finalReleasesTable, writeReleasesTable, pySortedRows]
        rw [hm, rowsHomogeneous_mixed]
        simp
      refine ⟨?_, ?_, ?_, ?_, hnone⟩
      · intro r hr
        rw [hT]
        exact List.mem_map_of_mem _ hr
      · rw [hT, List.length_map]
      · rw [hT, map_idStr_old]
        exact hOld
      · intro m hm hmem2
        rw [hT]
        intro hcontra
        obtain ⟨r, _, heq⟩ := List.mem_map.mp hcontra
        cases heq

/-- Witness for C4: a stored table with ids "9", "10" merged with a fetched
record whose id 9 is already known. -/
theorem c4_witness :
    ([exR9, exR10].map StoredMeta.id).Nodup
    ∧ (∀ r ∈ [exR9, exR10], MetaRow.old r ∈ finalReleasesTable (some [exR9, exR10]) [exMeta9]) :=
  ⟨by decide,
    (c4_metadata_merge_invariants [exR9, exR10] [exMeta9] (by decide) (by decide)).1⟩

/-- C1 (evaluation of the code at the failing input): with stored rows id "9"
and id "10" and no new fetched record, the rewritten table is ordered
lexicographically ("10" before "9"), not by numeric value; and merging a
stored table with a genuinely new fetched record raises TypeError (mixed str
and int sort keys) before the table is written. -/
theorem c1_metadata_sort_lexicographic :
    finalReleasesTable (some [exR9, exR10]) [] = [MetaRow.old exR10, MetaRow.old exR9]
    ∧ ascNat ((finalReleasesTable (some [exR9, exR10]) []).map metaIdNum) = false
    ∧ writeReleasesTable (some [exR9]) [exMeta123] = Except.error pyTypeError :=
  ⟨rfl, rfl, rfl⟩

/-- C10: a release with zero assets still contributes its metadata record to
the merge (added when its identifier is new), while neither its downloads CSV
nor its raw-snapshot JSON is written. -/
theorem c10_zero_assets_meta_only (now : String) (r : Release)
    (file : Option (List (List String))) (h : r.assets = [])
    (oldRows : List StoredMeta) (fetched : List ReleaseMeta)
    (hmem : metaRowOf r ∈ fetched)
    (hfresh : Nat.repr r.id ∉ oldRows.map StoredMeta.id) :
    processRelease now r file = .ok ⟨metaRowOf r, none, false⟩
    ∧ MetaRow.new (metaRowOf r) ∈ mergedRows (some oldRows) fetched := by
  constructor
  · simp [processRelease, h]
  · simp only [mergedRows]
    refine List.mem_append_right _ (List.mem_map_of_mem _ (List.mem_filter.mpr ⟨hmem, ?_⟩))
    have hc : (oldRows.map (·.id)).contains (Nat.repr (metaRowOf r).id) = false :=
      contains_false_of_not_mem hfresh
    show (!((oldRows.map (·.id)).contains (Nat.repr (metaRowOf r).id))) = true
    rw [hc]
    rfl

/-- Witness for C10 at a concrete zero-asset release. -/
theorem c10_witness :
    exEmptyRelease.assets = []
    ∧ processRelease "t0" exEmptyRelease none = .ok ⟨metaRowOf exEmptyRelease, none, false⟩
    ∧ MetaRow.new (metaRowOf exEmptyRelease)
        ∈ mergedRows (some [exR9]) [metaRowOf exEmptyRelease] := by
  have h := c10_zero_assets_meta_only "t0" exEmptyRelease none rfl [exR9]
    [metaRowOf exEmptyRelease] (List.mem_singleton.mpr rfl) (by decide)
  exact ⟨rfl, h.1, h.2⟩

/-- C8: a release with zero assets in the snapshot creates no downloads CSV
file, raises no error, and the loop continues with the remaining releases
(recording only the metadata row). -/
theorem c8_zero_assets_skip (now : String) (r : Release) (rest : List Release)
    (st : RunState) (h : r.assets = []) :
    processRelease now r (lookupFile st.fs (downloadsCsvPath r.tag_name))
        = .ok ⟨metaRowOf r, none, false⟩
    ∧ processAll now (r :: rest) st
        = processAll now rest ⟨st.fs, st.metas ++ [metaRowOf r], st.jsons⟩ := by
  have h1 : processRelease now r (lookupFile st.fs (downloadsCsvPath r.tag_name))
      = .ok ⟨metaRowOf r, none, false⟩ := by simp [processRelease, h]
  refine ⟨h1, ?_⟩
  simp [processAll, h1]

/-- Witness for C8 at a concrete zero-asset release starting from an empty
filesystem. -/
theorem c8_witness :
    exEmptyRelease.assets = []
    ∧ processAll "t0" [exEmptyRelease] ⟨[], [], []⟩
        = processAll "t0" [] ⟨[], [] ++ [metaRowOf exEmptyRelease], []⟩ :=
  ⟨rfl, (c8_zero_assets_skip "t0" exEmptyRelease [] ⟨[], [], []⟩ rfl).2⟩

/-! ## Upsert path lemmas and claims -/

theorem map_name_not_isEmpty (r : Release) (hne : r.assets ≠ []) :
    ¬ (r.assets.map (·.name)).isEmpty = true := by
  rcases ha : r.assets with _ | ⟨a, t⟩
  · exact absurd ha hne
  · simp

theorem writeObsRow_ok (now : String) (assets : List Asset) (fieldnames : List String)
    (hin : ∀ n ∈ utc_date_header :: assets.map (·.name), n ∈ fieldnames) :
    writeObsRow now assets fieldnames = .ok (fieldnames.map (obsCell now assets)) := by
  have hall : (utc_date_header :: assets.map (·.name)).all fieldnames.contains = true := by
    rw [List.all_eq_true]
    intro x hx
    exact List.elem_eq_true_of_mem (hin x hx)
  unfold writeObsRow
  rw [hall]
  simp

theorem upsert_append_path (now path h0 : String) (oldNames : List String)
    (rows : List (List String)) (assets : List Asset)
    (hsub : ∀ n ∈ assets.map (·.name), n ∈ oldNames) :
    upsertRelease now path assets (some ((h0 :: oldNames) :: rows))
      = .ok (((h0 :: oldNames) :: rows)
          ++ [(utc_date_header :: oldNames).map (obsCell now assets)]) := by
  simp only [upsertRelease, List.drop_succ_cons, List.drop_zero]
  have hfe : (assets.map (·.name)).filter (fun n => !decide (n ∈ oldNames)) = [] := by
    rw [List.filter_eq_nil_iff]
    intro n hn
    simpa using hsub n hn
  have hobs := writeObsRow_ok now assets (utc_date_header :: oldNames)
    (by
      intro x hx
      rcases List.mem_cons.mp hx with h | h
      · exact h ▸ List.mem_cons_self _ _
      · exact List.mem_cons_of_mem _ (hsub x h))
  simp [hfe, hobs]

/-- C3: for a release with at least one asset whose snapshot asset-name set
coincides with the asset names of the stored header, the upserter appends
exactly one observation row to the existing file: the header and all stored
rows are passed through unchanged and the column set stays as stored. -/
theorem c3_identical_snapshot_append_only (now h0 : String) (r : Release)
    (oldNames : List String) (rows : List (List String))
    (hne : r.assets ≠ [])
    (hsub : ∀ n ∈ r.assets.map (·.name), n ∈ oldNames)
    (hsup : ∀ n ∈ oldNames, n ∈ r.assets.map (·.name)) :
    processRelease now r (some ((h0 :: oldNames) :: rows))
      = .ok ⟨metaRowOf r, some (((h0 :: oldNames) :: rows)
          ++ [(utc_date_header :: oldNames).map (obsCell now r.assets)]), true⟩ := by
  have hup := upsert_append_path now (downloadsCsvPath r.tag_name) h0 oldNames rows r.assets hsub
  simp [processRelease, map_name_not_isEmpty r hne, hup]

/-- Witness for C3: re-running on a stored two-column file with the identical
snapshot appends exactly the one new observation row. -/
theorem c3_witness :
    exRelease.assets ≠ []
    ∧ processRelease "t1" exRelease
        (some [[utc_date_header, "app.zip", "app.dmg"], ["t0", "5", "3"]])
      = .ok ⟨metaRowOf exRelease,
          some ([[utc_date_header, "app.zip", "app.dmg"], ["t0", "5", "3"]]
            ++ [(utc_date_header :: ["app.zip", "app.dmg"]).map (obsCell "t1" exRelease.assets)]),
          true⟩ :=
  ⟨by decide,
    c3_identical_snapshot_append_only "t1" utc_date_header exRelease ["app.zip", "app.dmg"]
      [["t0", "5", "3"]] (by decide) (by decide) (by decide)⟩

/-- C2 (evaluation of the code at the failing input): an existing downloads
file holding a header but no data rows, and a snapshot with the new asset
"app.dmg".  The upserter opens the file in append mode without rewriting the
header (the `file_mode` switch tests `existing_rows`, not `new_asset_names`),
so the header does not grow by the new name even though the code's own
comment says added assets force a header rewrite; the appended row has three
cells under the two-column header. -/
theorem c2_header_only_file_not_converted :
    upsertRelease "t1" (downloadsCsvPath "release-1.0")
        [⟨"app.zip", 5⟩, ⟨"app.dmg", 3⟩] (some [[utc_date_header, "app.zip"]])
      = .ok [[utc_date_header, "app.zip"], ["t1", "5", "3"]]
    ∧ "app.dmg" ∉ [utc_date_header, "app.zip"] :=
  ⟨rfl, by decide⟩

/-- C5 counterexample: on a headerless (empty) existing downloads CSV the
script prints its diagnostic with plain `print`, that is to standard output,
not to the error stream; the claim's "error stream" part is false on the
code. -/
theorem c5_counterexample :
    upsertRelease "t1" (downloadsCsvPath "release-1.0") [⟨"app.zip", 5⟩] (some [])
      = .error ⟨-1, OutStream.stdout,
          "Found csv file with no headers: " ++ downloadsCsvPath "release-1.0"⟩
    ∧ OutStream.stdout ≠ OutStream.stderr :=
  ⟨rfl, by decide⟩

/-- C5 amended: a headerless existing downloads CSV is a fatal, unrecovered
error — the process terminates with the non-zero exit code -1 and a
diagnostic message — but the diagnostic goes to standard output, not the
error stream. -/
theorem c5_headerless_fatal (now : String) (r : Release) (hne : r.assets ≠ []) :
    processRelease now r (some [])
      = .error ⟨-1, OutStream.stdout,
          "Found csv file with no headers: " ++ downloadsCsvPath r.tag_name⟩
    ∧ (-1 : Int) ≠ 0 := by
  refine ⟨?_, by decide⟩
  simp [processRelease, map_name_not_isEmpty r hne, upsertRelease]

/-- Witness for C5 at a concrete release and an empty stored file. -/
theorem c5_witness :
    exRelease.assets ≠ []
    ∧ processRelease "t1" exRelease (some [])
      = .error ⟨-1, OutStream.stdout,
          "Found csv file with no headers: " ++ downloadsCsvPath exRelease.tag_name⟩ :=
  ⟨by decide, (c5_headerless_fatal "t1" exRelease (by decide)).1⟩
